import Mathlib

/-!
Verification development for the Corelytics generation client
(`src/gemini_client.py` and its caller check in `src/blueprints/api.py`).

The provider (google.generativeai) is external: its behaviour at each
instantiation and content-generation call is supplied by an oracle
(`Behavior`).  Everything else is a direct shallow embedding of the
Python source: the model registry, the retry/fallback engine
`_generate_with_retry`, the response extractor
`_extract_text_from_response`, and the three public operations.
-/

namespace Corelytics

/-! ## String primitives (Python `in`, `str.split('/')[-1]`, `str.lower`) -/

/-- `leadSeg pat s` : the character list `pat` is a leading segment of `s`. -/
def leadSeg : List Char → List Char → Bool
  | [], _ => true
  | _ :: _, [] => false
  | a :: as, b :: bs => a == b && leadSeg as bs

/-- `containsSeg pat s` : `pat` occurs contiguously somewhere inside `s`. -/
def containsSeg (pat : List Char) : List Char → Bool
  | [] => leadSeg pat []
  | c :: rest => leadSeg pat (c :: rest) || containsSeg pat rest

/-- Embedding of Python's substring test `pat in s`. -/
def strContains (s pat : String) : Bool :=
  containsSeg pat.toList s.toList

/-- Characters after the last `'/'` (none present: the whole list). -/
def afterLastSlash (l : List Char) : List Char :=
  l.foldl (fun acc c => if c = '/' then [] else acc ++ [c]) []

/-- Embedding of Python's `s.split('/')[-1]`. -/
def lastPathComponent (s : String) : String :=
  String.mk (afterLastSlash s.toList)

/-- The whitespace set of Python's `str.strip()`. -/
def isPySpace (c : Char) : Bool :=
  c == ' ' || c == '\t' || c == '\n' || c == '\r' || c == '\x0B' || c == '\x0C'

/-- Embedding of Python's `str.strip()`: drop whitespace at both ends. -/
def pyStrip (s : String) : String :=
  String.mk (((s.toList.dropWhile isPySpace).reverse.dropWhile isPySpace).reverse)

/-- ASCII embedding of Python's `str.lower()`. -/
def lowerChar (c : Char) : Char :=
  if 'A' ≤ c && c ≤ 'Z' then Char.ofNat (c.toNat + 32) else c

/-- Embedding of Python's `str.lower()` on the error-message strings. -/
def pyLower (s : String) : String :=
  String.mk (s.toList.map lowerChar)

/-! ## Model registry (gemini_client.py lines 14-21) -/

/-- The ordered fallback list `PREFERRED_MODELS`. -/
def PREFERRED_MODELS : List String :=
  ["gemini-2.5-flash", "gemini-flash-latest", "gemini-2.0-flash-exp"]

/-- A provider model handle; only its `model_name` attribute is read by the
client code. -/
structure ModelObj where
  model_name : String
deriving DecidableEq, Repr

/-- Models `genai.GenerativeModel(name)` on the success path: the SDK
normalises a bare model name to the resource path `models/<name>`. -/
def mkModel (name : String) : ModelObj :=
  ⟨"models/" ++ name⟩

/-! ## Start-index resolution (gemini_client.py lines 128-134) -/

/-- The scan of lines 130-134: first index whose registry entry is a
substring of the active model's stripped name, accumulating the running
index; `0` when nothing matches. -/
def findStartIdx : List String → Nat → String → Nat
  | [], _, _ => 0
  | p :: rest, i, nm => if strContains nm p then i else findStartIdx rest (i + 1) nm

/-- Modelled from the spec's words (§4.2/§8.1): the index of the first
preference-list entry that is a substring of the given name, defaulting
to `0` when no entry matches.  Used only to compare against
`findStartIdx`, the definition taken from the source. -/
def specStartIndex (prefs : List String) (nm : String) : Nat :=
  match prefs.findIdx? (fun p => strContains nm p) with
  | some i => i
  | none => 0

/-! ## Provider responses and the response extractor
(gemini_client.py lines 191-205) -/

/-- A Python attribute access: missing (`hasattr` is false), raising a
non-AttributeError exception when accessed, or present with a value. -/
inductive Attr (α : Type) where
  | absent
  | raises
  | val (a : α)
deriving DecidableEq, Repr

/-- One entry of `response.parts`; only its optional `text` attribute is
read. -/
structure Part where
  text : Attr String
deriving DecidableEq, Repr

/-- A provider response envelope: its truthiness, its optional `text`
attribute and its optional `parts` attribute, each of which may raise on
access (as the SDK does for blocked or empty candidates). -/
structure Response where
  truthy : Bool
  text : Attr String
  parts : Attr (List Part)
deriving DecidableEq, Repr

/-- The `for part in response.parts` scan of lines 199-201, ending in the
`return ""` of line 202; `none` models an exception escaping to the
`except` handler. -/
def partsScan : List Part → Option String
  | [] => some ""
  | p :: rest =>
    match p.text with
    | Attr.absent => partsScan rest
    | Attr.raises => none
    | Attr.val t => some (pyStrip t)

/-- The body of the `try` block of lines 195-202; `none` models an
exception reaching the `except` handler of lines 203-205. -/
def tryExtract (resp : Response) : Option String :=
  match resp.text with
  | Attr.raises => none
  | Attr.val t => some (pyStrip t)
  | Attr.absent =>
    match resp.parts with
    | Attr.raises => none
    | Attr.absent => none
    | Attr.val ps => if ps.isEmpty then some "" else partsScan ps

/-- Embedding of `_extract_text_from_response` (lines 191-205). -/
def _extract_text_from_response (response : Option Response) : String :=
  match response with
  | none => ""
  | some resp =>
    if !resp.truthy then ""
    else
      match tryExtract resp with
      | some s => s
      | none => ""

/-! ## Numeral extraction (gemini_client.py line 230: `re.findall` of
the pattern digits, optional dot, digits) -/

/-- Longest leading run of ASCII digits, with the remainder. -/
def digitRun : List Char → List Char × List Char
  | [] => ([], [])
  | c :: cs =>
    if c.isDigit then
      let (d, r) := digitRun cs
      (c :: d, r)
    else ([], c :: cs)

/-- Match the calorie numeral pattern (one or more digits, an optional
dot, then any digits) at the head of the list. -/
def matchNumeral : List Char → Option (List Char)
  | [] => none
  | c :: cs =>
    if c.isDigit then
      let (d1, r1) := digitRun cs
      match r1 with
      | '.' :: r2 =>
        let (d2, _) := digitRun r2
        some (c :: d1 ++ '.' :: d2)
      | _ => some (c :: d1)
    else none

/-- First (leftmost) match of the numeral pattern, as `re.findall`'s
head element. -/
def findFirstNum : List Char → Option (List Char)
  | [] => none
  | c :: cs =>
    match matchNumeral (c :: cs) with
    | some m => some m
    | none => findFirstNum cs

/-- Numeric value of a digit list, most significant first. -/
def digitsVal (l : List Char) : Nat :=
  l.foldl (fun a c => 10 * a + (c.toNat - '0'.toNat)) 0

/-- Value of a matched numeral, as Python's `float` of the matched
string; decimal numerals are represented exactly as rationals. -/
def numeralToRat (m : List Char) : ℚ :=
  let ip := m.takeWhile (fun c => c.isDigit)
  let rest := m.dropWhile (fun c => c.isDigit)
  let fp := match rest with
    | '.' :: fs => fs
    | _ => []
  (digitsVal ip : ℚ) + (digitsVal fp : ℚ) / (10 : ℚ) ^ fp.length

/-! ## Provider oracle and the retry/fallback engine
(gemini_client.py lines 117-189) -/

/-- Outcome of one `generate_content` call, as classified by the
`try`/`except` chain of lines 155-182. -/
inductive CallResult where
  | success (resp : Response)
  | blockedPrompt
  | stopCandidate
  | brokenResponse
  | resourceExhausted
  | otherError (msg : String)
deriving DecidableEq, Repr

/-- The external provider, as an oracle: whether the `k`-th
`genai.GenerativeModel(...)` construction raises, and the outcome of
the `k`-th content-generation call. -/
structure Behavior where
  instantiateFails : Nat → Bool
  call : Nat → CallResult

/-- Observable actions of one engine invocation, in order. -/
inductive Event where
  | instOk (name : String)
  | instFail (name : String)
  | callEv (modelName : String) (res : CallResult)
  | sleepEv (secs : Nat)
deriving DecidableEq, Repr

/-- Engine state: the process-wide `current_gemini_model`, the oracle
cursors, the `total_retries` counter of line 137, and the event
trace. -/
structure GenState where
  current : Option ModelObj
  nInst : Nat
  nCalls : Nat
  total_retries : Nat
  events : List Event
deriving DecidableEq, Repr

/-- Control signal a `for`-body iteration delivers to its loop. -/
inductive LoopSig where
  | sigReturn (r : Option Response)
  | sigBreak
  | sigContinue
deriving DecidableEq, Repr

/-- How one inner-loop iteration exits: a `return` from the function, or
a `break`/loop-exhaustion handing control to the next model slot. -/
inductive InnerRes where
  | innerReturn (r : Option Response)
  | innerDone
deriving DecidableEq, Repr

/-- The `try`/`except` chain of lines 155-182, as the loop signal each
call outcome produces: success returns the response (line 164); blocked
or stopped generation returns `None` (lines 166-168); a broken response
or quota exhaustion breaks to the next model (lines 169-174); any other
error breaks when its lowercased message contains one of the three
transient markers (lines 175-179) and otherwise returns `None`
(lines 180-182). -/
def classify_call_result : CallResult → LoopSig
  | CallResult.success r => LoopSig.sigReturn (some r)
  | CallResult.blockedPrompt => LoopSig.sigReturn none
  | CallResult.stopCandidate => LoopSig.sigReturn none
  | CallResult.brokenResponse => LoopSig.sigBreak
  | CallResult.resourceExhausted => LoopSig.sigBreak
  | CallResult.otherError msg =>
    let m := pyLower msg
    if strContains m "not found" || strContains m "bad request" ||
        strContains m "connection error" then
      LoopSig.sigBreak
    else
      LoopSig.sigReturn none

/-- The backoff of lines 184-186: sleep `2 ** inner_retry_attempt`
seconds, but only before another inner attempt would follow
(`inner_retry_attempt < 2`). -/
def backoffSleep (inner_retry_attempt : Nat) : Option Nat :=
  if inner_retry_attempt < 2 then some (2 ^ inner_retry_attempt) else none

/-- The inner `for inner_retry_attempt in range(3)` loop of
lines 153-186, generic in its body: each iteration may return from the
function, break to the next model, or fall through to the backoff sleep
and the next iteration. -/
def innerLoop (step : Nat → GenState → LoopSig × GenState) :
    List Nat → GenState → InnerRes × GenState
  | [], st => (InnerRes.innerDone, st)
  | i :: rest, st =>
    match step i st with
    | (LoopSig.sigReturn r, st1) => (InnerRes.innerReturn r, st1)
    | (LoopSig.sigBreak, st1) => (InnerRes.innerDone, st1)
    | (LoopSig.sigContinue, st1) =>
      let st2 :=
        match backoffSleep i with
        | some d => { st1 with events := st1.events ++ [Event.sleepEv d] }
        | none => st1
      innerLoop step rest st2

/-- One inner-loop iteration of the engine: count the attempt
(line 154), issue the provider call on the selected model (lines
158-161), and classify its outcome. -/
def engineStep (b : Behavior) (mdl : ModelObj) (_i : Nat) (st : GenState) :
    LoopSig × GenState :=
  let res := b.call st.nCalls
  (classify_call_result res,
   { st with
       total_retries := st.total_retries + 1
       nCalls := st.nCalls + 1
       events := st.events ++ [Event.callEv mdl.model_name res] })

/-- The `try`/`except` around `genai.GenerativeModel(model_to_use_name)`
of lines 145-150: on failure the slot is skipped; on success the
process-wide model is replaced. -/
def tryInstantiate (b : Behavior) (name : String) (st : GenState) :
    Option ModelObj × GenState :=
  if b.instantiateFails st.nInst then
    (none, { st with nInst := st.nInst + 1, events := st.events ++ [Event.instFail name] })
  else
    let m := mkModel name
    (some m,
     { st with
         nInst := st.nInst + 1
         current := some m
         events := st.events ++ [Event.instOk name] })

/-- The outer `for model_switch_attempt in range(max_model_switches)`
loop of lines 140-186: pick the slot's model name with wrap-around
(line 141), re-instantiate unless the name is already inside the active
model's name (lines 144-150), then run the inner retry loop; falling off
the end returns `None` (lines 188-189). -/
def outerLoop (b : Behavior) (start : Nat) :
    List Nat → GenState → Option Response × GenState
  | [], st => (none, st)
  | a :: rest, st =>
    let name := PREFERRED_MODELS.getD ((start + a) % PREFERRED_MODELS.length) ""
    let pick : Option ModelObj × GenState :=
      match st.current with
      | some cm =>
        if strContains cm.model_name name then (some cm, st)
        else tryInstantiate b name st
      | none => tryInstantiate b name st
    match pick with
    | (none, st1) => outerLoop b start rest st1
    | (some mdl, st1) =>
      match innerLoop (engineStep b mdl) (List.range 3) st1 with
      | (InnerRes.innerReturn r, st2) => (r, st2)
      | (InnerRes.innerDone, st2) => outerLoop b start rest st2

/-- Embedding of `_generate_with_retry` (lines 117-189): `entry` is the
process-wide `current_gemini_model` at entry; the returned state carries
the final `current_gemini_model`, the counters and the event trace. -/
def _generate_with_retry (entry : Option ModelObj) (b : Behavior) :
    Option Response × GenState :=
  match entry with
  | none =>
    (none, { current := none, nInst := 0, nCalls := 0, total_retries := 0, events := [] })
  | some m0 =>
    let initial_model_name := lastPathComponent m0.model_name
    let start_model_index := findStartIdx PREFERRED_MODELS 0 initial_model_name
    let st0 : GenState :=
      { current := some m0, nInst := 0, nCalls := 0, total_retries := 0, events := [] }
    outerLoop b start_model_index (List.range PREFERRED_MODELS.length) st0

/-! ## Public operations (gemini_client.py lines 209-307) and the
caller's failure check (blueprints/api.py line 221) -/

/-- Embedding of `estimate_calories_with_gemini` (lines 209-240).  The
prompt text does not influence the oracle-driven provider, so only the
post-processing of the response is modelled; the returned float is
represented exactly as a rational. -/
def estimate_calories_with_gemini (entry : Option ModelObj) (b : Behavior) : ℚ :=
  let response := (_generate_with_retry entry b).1
  let estimated_calories_raw := _extract_text_from_response response
  if estimated_calories_raw = "" then 0
  else
    match findFirstNum estimated_calories_raw.toList with
    | some m =>
      let estimated_calories := numeralToRat m
      if estimated_calories < 0 then 0 else estimated_calories
    | none => 0

/-- The fixed failure sentence of line 286. -/
def MEAL_PLAN_FAILURE_MESSAGE : String :=
  "Failed to generate a meal plan. The AI service may be busy. Please try again later."

/-- Embedding of `generate_meal_plan_with_gemini` (lines 242-289): the
profile only shapes the prompt, which the oracle-driven provider
ignores, so the outcome depends on the engine result alone. -/
def generate_meal_plan_with_gemini (entry : Option ModelObj) (b : Behavior) : String :=
  let response := (_generate_with_retry entry b).1
  let meal_plan_text := _extract_text_from_response response
  if meal_plan_text = "" then MEAL_PLAN_FAILURE_MESSAGE else meal_plan_text

/-- Embedding of `generate_chat_response` (lines 291-307): `none` is the
unavailable marker returned on empty extraction. -/
def generate_chat_response (entry : Option ModelObj) (b : Behavior) : Option String :=
  let response := (_generate_with_retry entry b).1
  let bot_response := _extract_text_from_response response
  if bot_response = "" then none else some bot_response

/-- The caller's substring failure check on the meal-plan string
(blueprints/api.py line 221). -/
def meal_plan_failure_check (s : String) : Bool :=
  strContains s "Error" || strContains s "Failed" || strContains s "Could not"

/-! ## Trace observations -/

/-- Durations of the sleep events of a trace, in order. -/
def sleepDurations (evs : List Event) : List Nat :=
  evs.filterMap fun e =>
    match e with
    | Event.sleepEv d => some d
    | _ => none

/-- Provider calls of a trace: model name used and outcome, in order. -/
def callLog (evs : List Event) : List (String × CallResult) :=
  evs.filterMap fun e =>
    match e with
    | Event.callEv n r => some (n, r)
    | _ => none

/-- Name of the most recent successful model instantiation of a trace. -/
def lastInstOkName : List Event → Option String
  | [] => none
  | Event.instOk n :: rest =>
    match lastInstOkName rest with
    | some m => some m
    | none => some n
  | _ :: rest => lastInstOkName rest

/-- How an inner-loop iteration's signal exits the loop. -/
def sigExit : LoopSig → InnerRes
  | LoopSig.sigReturn r => InnerRes.innerReturn r
  | _ => InnerRes.innerDone

/-- The model that is current after the trace piece `Δ`, starting from
`d`: the most recently successfully instantiated model of `Δ`, or `d`
when `Δ` instantiated none. -/
def modelAfter (d : ModelObj) (Δ : List Event) : ModelObj :=
  match lastInstOkName Δ with
  | some n => mkModel n
  | none => d

/-- One iteration of a state-preserving inner-loop body: the iteration
delivers a fixed signal and leaves the state untouched.  Used to study
the backoff schedule of the loop driver in isolation. -/
def pureStep (sigs : Nat → LoopSig) : Nat → GenState → LoopSig × GenState :=
  fun i st => (sigs i, st)

/-- Postcondition of the quota-exhausted-then-success scenario: starting
on model `A`, the engine returns the response `r`, has made exactly two
provider calls — the first on `A` with quota exhaustion, the second on
`B` with success — and leaves `B` as the process-wide model. -/
def C3Post (A B : String) (r : Response) (b : Behavior) : Prop :=
  (_generate_with_retry (some (mkModel A)) b).1 = some r ∧
  ((_generate_with_retry (some (mkModel A)) b).2).nCalls = 2 ∧
  callLog ((_generate_with_retry (some (mkModel A)) b).2).events =
    [((mkModel A).model_name, CallResult.resourceExhausted),
     ((mkModel B).model_name, CallResult.success r)] ∧
  ((_generate_with_retry (some (mkModel A)) b).2).current = some (mkModel B)

/-! ## Concrete provider behaviours used as evaluation inputs -/

/-- A provider that blocks every prompt. -/
def blockedOracle : Behavior :=
  ⟨fun _ => false, fun _ => CallResult.blockedPrompt⟩

/-- A plain numeric response. -/
def respOK : Response :=
  ⟨true, Attr.val "450", Attr.absent⟩

/-- A provider that answers every call with the numeric response. -/
def okOracle : Behavior :=
  ⟨fun _ => false, fun _ => CallResult.success respOK⟩

/-- A response whose text holds no numeral. -/
def proseResp : Response :=
  ⟨true, Attr.val "no numbers here", Attr.absent⟩

/-- A provider that answers every call with the numeral-free response. -/
def proseOracle : Behavior :=
  ⟨fun _ => false, fun _ => CallResult.success proseResp⟩

/-- A provider whose every call exhausts the quota. -/
def quotaAllOracle : Behavior :=
  ⟨fun _ => false, fun _ => CallResult.resourceExhausted⟩

/-- A provider that exhausts the quota once, then succeeds. -/
def quotaThenOkOracle : Behavior :=
  ⟨fun _ => false,
   fun n => if n = 0 then CallResult.resourceExhausted else CallResult.success respOK⟩

/-! ## Basic facts about the classification and the inner loop -/

/-- Every branch of the `try`/`except` chain either returns from the
function or breaks to the next model slot; none falls through to the
backoff sleep. -/
theorem classify_ne_continue (res : CallResult) :
    classify_call_result res ≠ LoopSig.sigContinue := by
  cases res <;> simp [classify_call_result]
  split <;> simp

/-- Only a provider success is classified as returning an actual
response. -/
theorem classify_sigReturn_some (res : CallResult) (r : Response)
    (h : classify_call_result res = LoopSig.sigReturn (some r)) :
    res = CallResult.success r := by
  cases res <;> simp [classify_call_result] at h <;> try simp [h]
  revert h
  split <;> simp

theorem range3 : List.range 3 = [0, 1, 2] := by decide

theorem rangePM : List.range PREFERRED_MODELS.length = [0, 1, 2] := by decide

/-- The inner retry loop performs exactly one provider call per model
slot: the first iteration's signal already exits the loop. -/
theorem innerLoop_engineStep_eq (b : Behavior) (mdl : ModelObj) (i : Nat)
    (rest : List Nat) (st : GenState) :
    innerLoop (engineStep b mdl) (i :: rest) st =
      (sigExit (classify_call_result (b.call st.nCalls)),
       { st with
           total_retries := st.total_retries + 1
           nCalls := st.nCalls + 1
           events := st.events ++ [Event.callEv mdl.model_name (b.call st.nCalls)] }) := by
  have hne := classify_ne_continue (b.call st.nCalls)
  cases h : classify_call_result (b.call st.nCalls) with
  | sigReturn r => simp [innerLoop, engineStep, h, sigExit]
  | sigBreak => simp [innerLoop, engineStep, h, sigExit]
  | sigContinue => exact absurd h hne

/-! ## Step lemmas for the outer model-slot loop -/

/-- A slot whose name is already part of the active model's name: no
re-instantiation, the inner loop runs on the active model. -/
theorem outer_step_stay (b : Behavior) (start a : Nat) (rest : List Nat)
    (st : GenState) (cm : ModelObj) (hcur : st.current = some cm)
    (hname : strContains cm.model_name
      (PREFERRED_MODELS.getD ((start + a) % PREFERRED_MODELS.length) "") = true) :
    outerLoop b start (a :: rest) st =
      match innerLoop (engineStep b cm) (List.range 3) st with
      | (InnerRes.innerReturn r, st2) => (r, st2)
      | (InnerRes.innerDone, st2) => outerLoop b start rest st2 := by
  simp only [outerLoop, hcur, hname]
  simp

/-- A switching slot whose instantiation succeeds: the process-wide
model is replaced and the inner loop runs on the new model. -/
theorem outer_step_switch_ok (b : Behavior) (start a : Nat) (rest : List Nat)
    (st : GenState) (cm : ModelObj) (hcur : st.current = some cm)
    (hname : strContains cm.model_name
      (PREFERRED_MODELS.getD ((start + a) % PREFERRED_MODELS.length) "") = false)
    (hins : b.instantiateFails st.nInst = false) :
    outerLoop b start (a :: rest) st =
      (let name := PREFERRED_MODELS.getD ((start + a) % PREFERRED_MODELS.length) ""
       let st1 : GenState :=
         { st with
             nInst := st.nInst + 1
             current := some (mkModel name)
             events := st.events ++ [Event.instOk name] }
       match innerLoop (engineStep b (mkModel name)) (List.range 3) st1 with
       | (InnerRes.innerReturn r, st2) => (r, st2)
       | (InnerRes.innerDone, st2) => outerLoop b start rest st2) := by
  simp only [outerLoop, hcur, hname, tryInstantiate, hins]
  simp

/-- A switching slot whose instantiation raises: the slot is skipped. -/
theorem outer_step_switch_fail (b : Behavior) (start a : Nat) (rest : List Nat)
    (st : GenState) (cm : ModelObj) (hcur : st.current = some cm)
    (hname : strContains cm.model_name
      (PREFERRED_MODELS.getD ((start + a) % PREFERRED_MODELS.length) "") = false)
    (hins : b.instantiateFails st.nInst = true) :
    outerLoop b start (a :: rest) st =
      outerLoop b start rest
        { st with
            nInst := st.nInst + 1
            events := st.events ++
              [Event.instFail (PREFERRED_MODELS.getD ((start + a) % PREFERRED_MODELS.length) "")] } := by
  simp only [outerLoop, hcur, hname, tryInstantiate, hins]
  simp

/-- A slot reached with no active model and a successful instantiation. -/
theorem outer_step_none_ok (b : Behavior) (start a : Nat) (rest : List Nat)
    (st : GenState) (hcur : st.current = none)
    (hins : b.instantiateFails st.nInst = false) :
    outerLoop b start (a :: rest) st =
      (let name := PREFERRED_MODELS.getD ((start + a) % PREFERRED_MODELS.length) ""
       let st1 : GenState :=
         { st with
             nInst := st.nInst + 1
             current := some (mkModel name)
             events := st.events ++ [Event.instOk name] }
       match innerLoop (engineStep b (mkModel name)) (List.range 3) st1 with
       | (InnerRes.innerReturn r, st2) => (r, st2)
       | (InnerRes.innerDone, st2) => outerLoop b start rest st2) := by
  simp only [outerLoop, hcur, tryInstantiate, hins]
  simp

/-- A slot reached with no active model and a failing instantiation. -/
theorem outer_step_none_fail (b : Behavior) (start a : Nat) (rest : List Nat)
    (st : GenState) (hcur : st.current = none)
    (hins : b.instantiateFails st.nInst = true) :
    outerLoop b start (a :: rest) st =
      outerLoop b start rest
        { st with
            nInst := st.nInst + 1
            events := st.events ++
              [Event.instFail (PREFERRED_MODELS.getD ((start + a) % PREFERRED_MODELS.length) "")] } := by
  simp only [outerLoop, hcur, tryInstantiate, hins]
  simp

/-! ## Outer-loop invariants -/

/-- Each remaining model slot contributes at most one provider call. -/
theorem outer_nCalls_le (b : Behavior) (start : Nat) (slots : List Nat) :
    ∀ st : GenState,
      ((outerLoop b start slots st).2).nCalls ≤ st.nCalls + slots.length := by
  induction slots with
  | nil => intro st; simp [outerLoop]
  | cons a rest IH =>
    intro st
    cases hcur : st.current with
    | none =>
      cases hins : b.instantiateFails st.nInst with
      | true =>
        rw [outer_step_none_fail b start a rest st hcur hins]
        refine le_trans (IH _) ?_
        dsimp only
        simp only [List.length_cons]
        omega
      | false =>
        rw [outer_step_none_ok b start a rest st hcur hins]
        dsimp only
        rw [range3, innerLoop_engineStep_eq]
        cases hcl : classify_call_result (b.call st.nCalls) with
        | sigReturn r =>
          dsimp only [sigExit]
          simp only [List.length_cons]
          omega
        | sigBreak =>
          dsimp only [sigExit]
          refine le_trans (IH _) ?_
          dsimp only
          simp only [List.length_cons]
          omega
        | sigContinue => exact absurd hcl (classify_ne_continue _)
    | some cm =>
      cases hname : strContains cm.model_name
          (PREFERRED_MODELS.getD ((start + a) % PREFERRED_MODELS.length) "") with
      | true =>
        rw [outer_step_stay b start a rest st cm hcur hname]
        rw [range3, innerLoop_engineStep_eq]
        cases hcl : classify_call_result (b.call st.nCalls) with
        | sigReturn r =>
          dsimp only [sigExit]
          simp only [List.length_cons]
          omega
        | sigBreak =>
          dsimp only [sigExit]
          refine le_trans (IH _) ?_
          dsimp only
          simp only [List.length_cons]
          omega
        | sigContinue => exact absurd hcl (classify_ne_continue _)
      | false =>
        cases hins : b.instantiateFails st.nInst with
        | true =>
          rw [outer_step_switch_fail b start a rest st cm hcur hname hins]
          refine le_trans (IH _) ?_
          dsimp only
          simp only [List.length_cons]
          omega
        | false =>
          rw [outer_step_switch_ok b start a rest st cm hcur hname hins]
          dsimp only
          rw [range3, innerLoop_engineStep_eq]
          cases hcl : classify_call_result (b.call st.nCalls) with
          | sigReturn r =>
            dsimp only [sigExit]
            simp only [List.length_cons]
            omega
          | sigBreak =>
            dsimp only [sigExit]
            refine le_trans (IH _) ?_
            dsimp only
            simp only [List.length_cons]
            omega
          | sigContinue => exact absurd hcl (classify_ne_continue _)

theorem sleepDurations_append (xs ys : List Event) :
    sleepDurations (xs ++ ys) = sleepDurations xs ++ sleepDurations ys := by
  simp [sleepDurations]

theorem sleepDurations_callEv (n : String) (r : CallResult) :
    sleepDurations [Event.callEv n r] = [] := by
  simp [sleepDurations]

theorem sleepDurations_instOk (n : String) :
    sleepDurations [Event.instOk n] = [] := by
  simp [sleepDurations]

theorem sleepDurations_instFail (n : String) :
    sleepDurations [Event.instFail n] = [] := by
  simp [sleepDurations]

theorem sleepDurations_cons_instOk (n : String) (rest : List Event) :
    sleepDurations (Event.instOk n :: rest) = sleepDurations rest := by
  simp [sleepDurations]

theorem sleepDurations_cons_instFail (n : String) (rest : List Event) :
    sleepDurations (Event.instFail n :: rest) = sleepDurations rest := by
  simp [sleepDurations]

theorem sleepDurations_cons_callEv (n : String) (r : CallResult) (rest : List Event) :
    sleepDurations (Event.callEv n r :: rest) = sleepDurations rest := by
  simp [sleepDurations]

/-- The outer loop only appends to the trace, and what it appends
contains no sleep events. -/
theorem outer_events_delta (b : Behavior) (start : Nat) (slots : List Nat) :
    ∀ st : GenState, ∃ Δ : List Event,
      ((outerLoop b start slots st).2).events = st.events ++ Δ ∧
      sleepDurations Δ = [] := by
  induction slots with
  | nil => intro st; exact ⟨[], by simp [outerLoop], rfl⟩
  | cons a rest IH =>
    intro st
    cases hcur : st.current with
    | none =>
      cases hins : b.instantiateFails st.nInst with
      | true =>
        rw [outer_step_none_fail b start a rest st hcur hins]
        obtain ⟨Δ, h1, h2⟩ := IH { st with
          nInst := st.nInst + 1
          events := st.events ++
            [Event.instFail (PREFERRED_MODELS.getD ((start + a) % PREFERRED_MODELS.length) "")] }
        refine ⟨[Event.instFail (PREFERRED_MODELS.getD ((start + a) % PREFERRED_MODELS.length) "")]
          ++ Δ, ?_, ?_⟩
        · rw [h1]; dsimp only; rw [List.append_assoc]
        · simp [sleepDurations_cons_instFail, h2]
      | false =>
        rw [outer_step_none_ok b start a rest st hcur hins]
        dsimp only
        rw [range3, innerLoop_engineStep_eq]
        cases hcl : classify_call_result (b.call st.nCalls) with
        | sigReturn r =>
          dsimp only [sigExit]
          refine ⟨[Event.instOk (PREFERRED_MODELS.getD ((start + a) % PREFERRED_MODELS.length) "")]
            ++ [Event.callEv
                (mkModel (PREFERRED_MODELS.getD ((start + a) % PREFERRED_MODELS.length) "")).model_name
                (b.call st.nCalls)], ?_, ?_⟩
          · dsimp only; rw [List.append_assoc]
          · simp [sleepDurations_cons_instOk, sleepDurations_cons_callEv, sleepDurations]
        | sigBreak =>
          dsimp only [sigExit]
          obtain ⟨Δ, h1, h2⟩ := IH _
          refine ⟨[Event.instOk (PREFERRED_MODELS.getD ((start + a) % PREFERRED_MODELS.length) "")]
            ++ [Event.callEv
                (mkModel (PREFERRED_MODELS.getD ((start + a) % PREFERRED_MODELS.length) "")).model_name
                (b.call st.nCalls)] ++ Δ, ?_, ?_⟩
          · rw [h1]; dsimp only; simp only [List.append_assoc]
          · simp [sleepDurations_cons_instOk, sleepDurations_cons_callEv, h2]
        | sigContinue => exact absurd hcl (classify_ne_continue _)
    | some cm =>
      cases hname : strContains cm.model_name
          (PREFERRED_MODELS.getD ((start + a) % PREFERRED_MODELS.length) "") with
      | true =>
        rw [outer_step_stay b start a rest st cm hcur hname]
        rw [range3, innerLoop_engineStep_eq]
        cases hcl : classify_call_result (b.call st.nCalls) with
        | sigReturn r =>
          dsimp only [sigExit]
          exact ⟨[Event.callEv cm.model_name (b.call st.nCalls)], rfl, sleepDurations_callEv _ _⟩
        | sigBreak =>
          dsimp only [sigExit]
          obtain ⟨Δ, h1, h2⟩ := IH _
          refine ⟨[Event.callEv cm.model_name (b.call st.nCalls)] ++ Δ, ?_, ?_⟩
          · rw [h1]; dsimp only; simp only [List.append_assoc]
          · simp [sleepDurations_cons_callEv, h2]
        | sigContinue => exact absurd hcl (classify_ne_continue _)
      | false =>
        cases hins : b.instantiateFails st.nInst with
        | true =>
          rw [outer_step_switch_fail b start a rest st cm hcur hname hins]
          obtain ⟨Δ, h1, h2⟩ := IH _
          refine ⟨[Event.instFail (PREFERRED_MODELS.getD ((start + a) % PREFERRED_MODELS.length) "")]
            ++ Δ, ?_, ?_⟩
          · rw [h1]; dsimp only; rw [List.append_assoc]
          · simp [sleepDurations_cons_instFail, h2]
        | false =>
          rw [outer_step_switch_ok b start a rest st cm hcur hname hins]
          dsimp only
          rw [range3, innerLoop_engineStep_eq]
          cases hcl : classify_call_result (b.call st.nCalls) with
          | sigReturn r =>
            dsimp only [sigExit]
            refine ⟨[Event.instOk (PREFERRED_MODELS.getD ((start + a) % PREFERRED_MODELS.length) "")]
              ++ [Event.callEv
                  (mkModel (PREFERRED_MODELS.getD ((start + a) % PREFERRED_MODELS.length) "")).model_name
                  (b.call st.nCalls)], ?_, ?_⟩
            · dsimp only; rw [List.append_assoc]
            · simp [sleepDurations_cons_instOk, sleepDurations_cons_callEv, sleepDurations]
          | sigBreak =>
            dsimp only [sigExit]
            obtain ⟨Δ, h1, h2⟩ := IH _
            refine ⟨[Event.instOk (PREFERRED_MODELS.getD ((start + a) % PREFERRED_MODELS.length) "")]
              ++ [Event.callEv
                  (mkModel (PREFERRED_MODELS.getD ((start + a) % PREFERRED_MODELS.length) "")).model_name
                  (b.call st.nCalls)] ++ Δ, ?_, ?_⟩
            · rw [h1]; dsimp only; simp only [List.append_assoc]
            · simp [sleepDurations_cons_instOk, sleepDurations_cons_callEv, h2]
          | sigContinue => exact absurd hcl (classify_ne_continue _)

theorem lastInstOkName_cons_instFail (n : String) (rest : List Event) :
    lastInstOkName (Event.instFail n :: rest) = lastInstOkName rest := rfl

theorem lastInstOkName_cons_callEv (n : String) (r : CallResult) (rest : List Event) :
    lastInstOkName (Event.callEv n r :: rest) = lastInstOkName rest := rfl

theorem lastInstOkName_cons_instOk (n : String) (rest : List Event) :
    lastInstOkName (Event.instOk n :: rest) =
      match lastInstOkName rest with
      | some m => some m
      | none => some n := rfl

/-- When the first provider call of the invocation is classified as an
immediate `return None` (a blocked or stopped generation), the whole
traversal fails with at most that one call, and when the call was made
it is the final event of the trace. -/
theorem outer_blocked (b : Behavior) (start : Nat)
    (hb : classify_call_result (b.call 0) = LoopSig.sigReturn none)
    (slots : List Nat) :
    ∀ st : GenState, st.nCalls = 0 →
      (outerLoop b start slots st).1 = none ∧
      ((outerLoop b start slots st).2).nCalls ≤ 1 ∧
      (((outerLoop b start slots st).2).nCalls = 1 →
        ∃ nm, ((outerLoop b start slots st).2).events.getLast? =
          some (Event.callEv nm (b.call 0))) := by
  induction slots with
  | nil =>
    intro st h0
    refine ⟨by simp [outerLoop], by simp [outerLoop, h0], ?_⟩
    intro h1
    simp [outerLoop, h0] at h1
  | cons a rest IH =>
    intro st h0
    cases hcur : st.current with
    | none =>
      cases hins : b.instantiateFails st.nInst with
      | true =>
        rw [outer_step_none_fail b start a rest st hcur hins]
        exact IH _ h0
      | false =>
        rw [outer_step_none_ok b start a rest st hcur hins]
        dsimp only
        rw [range3, innerLoop_engineStep_eq, h0, hb]
        dsimp only [sigExit]
        refine ⟨rfl, by simp, ?_⟩
        intro _
        exact ⟨_, by rw [List.getLast?_concat]⟩
    | some cm =>
      cases hname : strContains cm.model_name
          (PREFERRED_MODELS.getD ((start + a) % PREFERRED_MODELS.length) "") with
      | true =>
        rw [outer_step_stay b start a rest st cm hcur hname]
        rw [range3, innerLoop_engineStep_eq, h0, hb]
        dsimp only [sigExit]
        refine ⟨rfl, by simp, ?_⟩
        intro _
        exact ⟨cm.model_name, by rw [List.getLast?_concat]⟩
      | false =>
        cases hins : b.instantiateFails st.nInst with
        | true =>
          rw [outer_step_switch_fail b start a rest st cm hcur hname hins]
          exact IH _ h0
        | false =>
          rw [outer_step_switch_ok b start a rest st cm hcur hname hins]
          dsimp only
          rw [range3, innerLoop_engineStep_eq, h0, hb]
          dsimp only [sigExit]
          refine ⟨rfl, by simp, ?_⟩
          intro _
          exact ⟨_, by rw [List.getLast?_concat]⟩

theorem modelAfter_nil (d : ModelObj) : modelAfter d [] = d := rfl

theorem modelAfter_cons_instFail (d : ModelObj) (n : String) (Δ : List Event) :
    modelAfter d (Event.instFail n :: Δ) = modelAfter d Δ := rfl

theorem modelAfter_cons_callEv (d : ModelObj) (n : String) (r : CallResult) (Δ : List Event) :
    modelAfter d (Event.callEv n r :: Δ) = modelAfter d Δ := rfl

theorem modelAfter_cons_instOk (d : ModelObj) (n : String) (Δ : List Event) :
    modelAfter d (Event.instOk n :: Δ) = modelAfter (mkModel n) Δ := by
  unfold modelAfter
  rw [lastInstOkName_cons_instOk]
  cases lastInstOkName Δ <;> simp

/-- Through the whole slot traversal, the process-wide model is the most
recently successfully instantiated one (or the entry model when no
instantiation succeeded), and a successful result always comes from a
final provider call on exactly the final model. -/
theorem outer_current (b : Behavior) (start : Nat) (slots : List Nat) :
    ∀ (st : GenState) (d : ModelObj), st.current = some d →
      (∃ Δ : List Event,
        ((outerLoop b start slots st).2).events = st.events ++ Δ ∧
        ((outerLoop b start slots st).2).current = some (modelAfter d Δ)) ∧
      (∀ r : Response, (outerLoop b start slots st).1 = some r →
        ∃ (cm : ModelObj) (pre : List Event),
          ((outerLoop b start slots st).2).current = some cm ∧
          ((outerLoop b start slots st).2).events =
            pre ++ [Event.callEv cm.model_name (CallResult.success r)]) := by
  induction slots with
  | nil =>
    intro st d hd
    refine ⟨⟨[], by simp [outerLoop], by simp [outerLoop, hd, modelAfter_nil]⟩, ?_⟩
    intro r hr
    simp [outerLoop] at hr
  | cons a rest IH =>
    intro st d hd
    cases hname : strContains d.model_name
        (PREFERRED_MODELS.getD ((start + a) % PREFERRED_MODELS.length) "") with
    | true =>
      rw [outer_step_stay b start a rest st d hd hname]
      rw [range3, innerLoop_engineStep_eq]
      cases hcl : classify_call_result (b.call st.nCalls) with
      | sigReturn r0 =>
        dsimp only [sigExit]
        constructor
        · exact ⟨[Event.callEv d.model_name (b.call st.nCalls)], rfl,
            by simp [hd, modelAfter_cons_callEv, modelAfter_nil]⟩
        · intro resp hres
          rw [hres] at hcl
          have hcall := classify_sigReturn_some _ _ hcl
          exact ⟨d, st.events, by simp [hd], by rw [hcall]⟩
      | sigBreak =>
        dsimp only [sigExit]
        have hcur2 : (⟨st.current, st.nInst, st.nCalls + 1, st.total_retries + 1,
            st.events ++ [Event.callEv d.model_name (b.call st.nCalls)]⟩ : GenState).current
            = some d := hd
        obtain ⟨⟨Δ, hE, hC⟩, hS⟩ := IH _ d hcur2
        refine ⟨⟨Event.callEv d.model_name (b.call st.nCalls) :: Δ, ?_, ?_⟩, hS⟩
        · rw [hE]
          simp
        · rw [hC, modelAfter_cons_callEv]
      | sigContinue => exact absurd hcl (classify_ne_continue _)
    | false =>
      cases hins : b.instantiateFails st.nInst with
      | true =>
        rw [outer_step_switch_fail b start a rest st d hd hname hins]
        have hcur2 : (⟨st.current, st.nInst + 1, st.nCalls, st.total_retries,
            st.events ++ [Event.instFail
              (PREFERRED_MODELS.getD ((start + a) % PREFERRED_MODELS.length) "")]⟩
            : GenState).current = some d := hd
        obtain ⟨⟨Δ, hE, hC⟩, hS⟩ := IH _ d hcur2
        refine ⟨⟨Event.instFail (PREFERRED_MODELS.getD ((start + a) % PREFERRED_MODELS.length) "")
          :: Δ, ?_, ?_⟩, hS⟩
        · rw [hE]
          simp
        · rw [hC, modelAfter_cons_instFail]
      | false =>
        rw [outer_step_switch_ok b start a rest st d hd hname hins]
        dsimp only
        rw [range3, innerLoop_engineStep_eq]
        cases hcl : classify_call_result (b.call st.nCalls) with
        | sigReturn r0 =>
          dsimp only [sigExit]
          constructor
          · refine ⟨[Event.instOk (PREFERRED_MODELS.getD ((start + a) % PREFERRED_MODELS.length) ""),
              Event.callEv
                (mkModel (PREFERRED_MODELS.getD ((start + a) % PREFERRED_MODELS.length) "")).model_name
                (b.call st.nCalls)], ?_, ?_⟩
            · simp
            · simp [modelAfter_cons_instOk, modelAfter_cons_callEv, modelAfter_nil]
          · intro resp hres
            rw [hres] at hcl
            have hcall := classify_sigReturn_some _ _ hcl
            refine ⟨mkModel (PREFERRED_MODELS.getD ((start + a) % PREFERRED_MODELS.length) ""),
              st.events ++ [Event.instOk (PREFERRED_MODELS.getD ((start + a) % PREFERRED_MODELS.length) "")],
              by simp, ?_⟩
            rw [hcall]
        | sigBreak =>
          dsimp only [sigExit]
          have hcur2 : (⟨some (mkModel (PREFERRED_MODELS.getD ((start + a) % PREFERRED_MODELS.length) "")),
              st.nInst + 1, st.nCalls + 1, st.total_retries + 1,
              st.events ++ [Event.instOk (PREFERRED_MODELS.getD ((start + a) % PREFERRED_MODELS.length) "")]
                ++ [Event.callEv
                  (mkModel (PREFERRED_MODELS.getD ((start + a) % PREFERRED_MODELS.length) "")).model_name
                  (b.call st.nCalls)]⟩ : GenState).current
              = some (mkModel (PREFERRED_MODELS.getD ((start + a) % PREFERRED_MODELS.length) "")) := rfl
          obtain ⟨⟨Δ, hE, hC⟩, hS⟩ := IH _ _ hcur2
          refine ⟨⟨Event.instOk (PREFERRED_MODELS.getD ((start + a) % PREFERRED_MODELS.length) "")
            :: Event.callEv
              (mkModel (PREFERRED_MODELS.getD ((start + a) % PREFERRED_MODELS.length) "")).model_name
              (b.call st.nCalls)
            :: Δ, ?_, ?_⟩, hS⟩
          · rw [hE]
            simp
          · rw [hC, modelAfter_cons_instOk, modelAfter_cons_callEv]
        | sigContinue => exact absurd hcl (classify_ne_continue _)

/-! ## Claim theorems -/

theorem findStartIdx_spec_aux (nm : String) : ∀ (prefs : List String) (i : Nat),
    findStartIdx prefs i nm =
      match List.findIdx? (fun p => strContains nm p) prefs i with
      | some j => j
      | none => 0 := by
  intro prefs
  induction prefs with
  | nil => intro i; rfl
  | cons p rest IH =>
    intro i
    rw [findStartIdx]
    cases h : strContains nm p with
    | true => simp [h, List.findIdx?_cons]
    | false => simp [h, List.findIdx?_cons, IH]

/-- C4: for every preference-list ordering and every active model name,
the engine's start-position scan (`findStartIdx`, the loop of
gemini_client.py lines 130-134, applied by `_generate_with_retry` to the
path-stripped active model name) yields the index of the first
preference-list entry that is a substring of that name, and `0` when no
entry matches — which is exactly `specStartIndex`, the definition taken
from the spec's words. -/
theorem spec_C4_start_index_resolution (prefs : List String) (nm : String) :
    findStartIdx prefs 0 nm = specStartIndex prefs nm := by
  rw [findStartIdx_spec_aux]
  rfl

/-- C1: a single engine invocation makes at most
`len(PREFERRED_MODELS) * 3` provider content-generation calls, whatever
the provider does. -/
theorem spec_C1_total_call_bound (entry : Option ModelObj) (b : Behavior) :
    ((_generate_with_retry entry b).2).nCalls ≤ PREFERRED_MODELS.length * 3 := by
  cases entry with
  | none => exact Nat.zero_le _
  | some m0 =>
    simp only [_generate_with_retry]
    refine le_trans (outer_nCalls_le _ _ _ _) ?_
    dsimp only
    decide

/-- C9: every branch of the call classification either returns from the
engine or breaks to the next model slot, so each slot makes at most one
provider call, an invocation makes at most `len(PREFERRED_MODELS)`
calls in total, and the backoff sleep statement never executes (the
trace carries no sleep events). -/
theorem spec_C9_one_call_per_slot_no_sleep (entry : Option ModelObj) (b : Behavior) :
    (∀ res : CallResult, classify_call_result res ≠ LoopSig.sigContinue) ∧
    ((_generate_with_retry entry b).2).nCalls ≤ PREFERRED_MODELS.length ∧
    sleepDurations ((_generate_with_retry entry b).2).events = [] := by
  refine ⟨classify_ne_continue, ?_, ?_⟩
  · cases entry with
    | none => exact Nat.zero_le _
    | some m0 =>
      simp only [_generate_with_retry]
      refine le_trans (outer_nCalls_le _ _ _ _) ?_
      dsimp only
      decide
  · cases entry with
    | none => rfl
    | some m0 =>
      simp only [_generate_with_retry]
      obtain ⟨Δ, hE, hS⟩ := outer_events_delta b
        (findStartIdx PREFERRED_MODELS 0 (lastPathComponent m0.model_name))
        (List.range PREFERRED_MODELS.length)
        { current := some m0, nInst := 0, nCalls := 0, total_retries := 0, events := [] }
      rw [hE]
      simpa using hS

/-- C2: when the first provider call of an invocation raises a
policy-blocked or generation-stopped exception, the engine returns no
outcome, makes at most that one call (exactly one whenever any call is
made), and the blocked call is the final event of the trace — no retry
on the same model and no switch to another model follows it. -/
theorem spec_C2_blocked_immediate_failure (entry : Option ModelObj) (b : Behavior)
    (hb : b.call 0 = CallResult.blockedPrompt ∨ b.call 0 = CallResult.stopCandidate) :
    (_generate_with_retry entry b).1 = none ∧
    ((_generate_with_retry entry b).2).nCalls ≤ 1 ∧
    (((_generate_with_retry entry b).2).nCalls = 1 →
      ∃ nm, ((_generate_with_retry entry b).2).events.getLast? =
        some (Event.callEv nm (b.call 0))) := by
  have hcl : classify_call_result (b.call 0) = LoopSig.sigReturn none := by
    rcases hb with h | h <;> rw [h] <;> rfl
  cases entry with
  | none =>
    refine ⟨rfl, Nat.zero_le _, ?_⟩
    intro h
    simp [_generate_with_retry] at h
  | some m0 =>
    simp only [_generate_with_retry]
    exact outer_blocked b _ hcl _ _ rfl

/-- Evaluation of C2 on a provider that blocks the prompt: one call,
no outcome, and the blocked call closes the trace. -/
theorem spec_C2_blocked_immediate_failure_witness :
    (_generate_with_retry (some (mkModel "gemini-2.5-flash")) blockedOracle).1 = none ∧
    ((_generate_with_retry (some (mkModel "gemini-2.5-flash")) blockedOracle).2).nCalls ≤ 1 ∧
    (((_generate_with_retry (some (mkModel "gemini-2.5-flash")) blockedOracle).2).nCalls = 1 →
      ∃ nm, ((_generate_with_retry (some (mkModel "gemini-2.5-flash")) blockedOracle).2).events.getLast? =
        some (Event.callEv nm (blockedOracle.call 0))) :=
  spec_C2_blocked_immediate_failure (some (mkModel "gemini-2.5-flash")) blockedOracle (Or.inl rfl)

/-- C5: the inner retry loop's backoff schedule.  The sleep of
lines 184-186 is `2 ^ attempt_index` seconds (1s after attempt 0, 2s
after attempt 1, nothing after the final attempt), and for any body
signals whatsoever, the sleeps the three-attempt loop driver emits
between attempts are exactly `1s` (after attempt 0) and then `2s`
(after attempt 1), with no sleep after the third attempt even when it
also signals continuation. -/
theorem spec_C5_backoff_schedule :
    (backoffSleep 0 = some 1 ∧ backoffSleep 1 = some 2 ∧ backoffSleep 2 = none) ∧
    ∀ (sigs : Nat → LoopSig) (st : GenState),
      ((innerLoop (pureStep sigs) (List.range 3) st).2).events =
        st.events ++
          (if sigs 0 = LoopSig.sigContinue then
            Event.sleepEv 1 ::
              (if sigs 1 = LoopSig.sigContinue then [Event.sleepEv 2] else [])
          else []) := by
  refine ⟨⟨rfl, rfl, rfl⟩, ?_⟩
  intro sigs st
  rw [range3]
  cases hs0 : sigs 0 <;> cases hs1 : sigs 1 <;> cases hs2 : sigs 2 <;>
    simp [innerLoop, pureStep, backoffSleep, hs0, hs1, hs2]

/-- C6: no public operation surfaces a failure as an exception — in the
embedding all operations are total, and when the engine yields no
outcome each one resolves to its domain default (zero estimate, the
fixed failure sentence, the unavailable marker), while any error inside
the extractor's `try` block resolves to empty text. -/
theorem spec_C6_never_raises_defaults (entry : Option ModelObj) (b : Behavior) :
    ((_generate_with_retry entry b).1 = none →
      estimate_calories_with_gemini entry b = 0 ∧
      generate_meal_plan_with_gemini entry b = MEAL_PLAN_FAILURE_MESSAGE ∧
      generate_chat_response entry b = none) ∧
    (∀ resp : Response, tryExtract resp = none →
      _extract_text_from_response (some resp) = "") := by
  constructor
  · intro h
    refine ⟨?_, ?_, ?_⟩ <;>
      simp [estimate_calories_with_gemini, generate_meal_plan_with_gemini,
        generate_chat_response, h, _extract_text_from_response]
  · intro resp h
    cases htr : resp.truthy <;> simp [_extract_text_from_response, h, htr]

/-- Evaluation of C6: the defaults on an uninitialized model, and empty
text from a response whose text access raises. -/
theorem spec_C6_never_raises_defaults_witness :
    (estimate_calories_with_gemini none blockedOracle = 0 ∧
     generate_meal_plan_with_gemini none blockedOracle = MEAL_PLAN_FAILURE_MESSAGE ∧
     generate_chat_response none blockedOracle = none) ∧
    _extract_text_from_response (some ⟨true, Attr.raises, Attr.absent⟩) = "" :=
  ⟨(spec_C6_never_raises_defaults none blockedOracle).1 rfl,
   (spec_C6_never_raises_defaults none blockedOracle).2 ⟨true, Attr.raises, Attr.absent⟩ rfl⟩

/-- C8: when extraction yields empty text (in particular when the engine
produced no outcome), the meal-plan operation returns exactly the fixed
failure sentence, and that sentence passes the caller's substring-based
failure check of blueprints/api.py line 221. -/
theorem spec_C8_fixed_failure_sentence (entry : Option ModelObj) (b : Behavior)
    (h : _extract_text_from_response (_generate_with_retry entry b).1 = "") :
    generate_meal_plan_with_gemini entry b = MEAL_PLAN_FAILURE_MESSAGE ∧
    meal_plan_failure_check MEAL_PLAN_FAILURE_MESSAGE = true := by
  constructor
  · simp [generate_meal_plan_with_gemini, h]
  · decide

/-- Evaluation of C8 on total engine exhaustion (quota on all models):
the fixed sentence comes back and the caller's check flags it. -/
theorem spec_C8_fixed_failure_sentence_witness :
    generate_meal_plan_with_gemini (some (mkModel "gemini-2.5-flash")) quotaAllOracle =
      MEAL_PLAN_FAILURE_MESSAGE ∧
    meal_plan_failure_check MEAL_PLAN_FAILURE_MESSAGE = true :=
  spec_C8_fixed_failure_sentence (some (mkModel "gemini-2.5-flash")) quotaAllOracle (by decide)

theorem numeralToRat_nonneg (m : List Char) : 0 ≤ numeralToRat m := by
  unfold numeralToRat
  positivity

theorem estimate_nonneg (entry : Option ModelObj) (b : Behavior) :
    0 ≤ estimate_calories_with_gemini entry b := by
  dsimp only [estimate_calories_with_gemini]
  split
  · exact le_refl 0
  · split
    · split
      · exact le_refl 0
      · next h => exact le_of_not_lt h
    · exact le_refl 0

/-- C7: the calorie estimate is never negative and never an error: it is
`0` when the engine yields no outcome or the returned text holds no
numeral under the pattern scan (a scanned numeral is never negative),
and otherwise it is exactly the value of the first numeral found. -/
theorem spec_C7_estimate_fail_to_zero (entry : Option ModelObj) (b : Behavior) :
    0 ≤ estimate_calories_with_gemini entry b ∧
    (∀ m : List Char, 0 ≤ numeralToRat m) ∧
    ((_generate_with_retry entry b).1 = none →
      estimate_calories_with_gemini entry b = 0) ∧
    (findFirstNum (_extract_text_from_response (_generate_with_retry entry b).1).toList = none →
      estimate_calories_with_gemini entry b = 0) ∧
    (∀ m : List Char,
      findFirstNum (_extract_text_from_response (_generate_with_retry entry b).1).toList = some m →
      estimate_calories_with_gemini entry b = numeralToRat m) := by
  refine ⟨estimate_nonneg entry b, numeralToRat_nonneg, ?_, ?_, ?_⟩
  · intro h
    simp [estimate_calories_with_gemini, h, _extract_text_from_response]
  · intro h
    dsimp only [estimate_calories_with_gemini]
    split
    · rfl
    · rw [h]
  · intro m h
    have hne : _extract_text_from_response (_generate_with_retry entry b).1 ≠ "" := by
      intro he
      rw [he] at h
      exact Option.noConfusion h
    dsimp only [estimate_calories_with_gemini]
    rw [if_neg hne, h]
    exact if_neg (not_lt.mpr (numeralToRat_nonneg m))

/-- Evaluation of C7: zero on an uninitialized model, zero on
numeral-free text, and the exact first numeral on a numeric reply. -/
theorem spec_C7_estimate_fail_to_zero_witness :
    estimate_calories_with_gemini none blockedOracle = 0 ∧
    estimate_calories_with_gemini (some (mkModel "gemini-2.5-flash")) proseOracle = 0 ∧
    estimate_calories_with_gemini (some (mkModel "gemini-2.5-flash")) okOracle =
      numeralToRat ['4', '5', '0'] :=
  ⟨(spec_C7_estimate_fail_to_zero none blockedOracle).2.2.1 rfl,
   (spec_C7_estimate_fail_to_zero (some (mkModel "gemini-2.5-flash")) proseOracle).2.2.2.1
     (by decide),
   (spec_C7_estimate_fail_to_zero (some (mkModel "gemini-2.5-flash")) okOracle).2.2.2.2
     ['4', '5', '0'] (by decide)⟩

theorem c3_from_slot0 (r : Response) (b : Behavior)
    (hinst : ∀ n, b.instantiateFails n = false)
    (h0 : b.call 0 = CallResult.resourceExhausted)
    (h1 : b.call 1 = CallResult.success r) :
    C3Post "gemini-2.5-flash" "gemini-flash-latest" r b := by
  have slotA : outerLoop b 0 [0, 1, 2]
      { current := some (mkModel "gemini-2.5-flash"), nInst := 0, nCalls := 0,
        total_retries := 0, events := [] }
      = outerLoop b 0 [1, 2]
      { current := some (mkModel "gemini-2.5-flash"), nInst := 0, nCalls := 1,
        total_retries := 1,
        events := [Event.callEv "models/gemini-2.5-flash" CallResult.resourceExhausted] } := by
    rw [outer_step_stay b 0 0 [1, 2]
      { current := some (mkModel "gemini-2.5-flash"), nInst := 0, nCalls := 0,
        total_retries := 0, events := [] }
      (mkModel "gemini-2.5-flash") rfl (by decide)]
    rw [range3, innerLoop_engineStep_eq]
    dsimp only
    rw [h0]
    rfl
  have slotB : outerLoop b 0 [1, 2]
      { current := some (mkModel "gemini-2.5-flash"), nInst := 0, nCalls := 1,
        total_retries := 1,
        events := [Event.callEv "models/gemini-2.5-flash" CallResult.resourceExhausted] }
      = (some r,
        { current := some (mkModel "gemini-flash-latest"), nInst := 1, nCalls := 2,
          total_retries := 2,
          events := [Event.callEv "models/gemini-2.5-flash" CallResult.resourceExhausted,
            Event.instOk "gemini-flash-latest",
            Event.callEv "models/gemini-flash-latest" (CallResult.success r)] }) := by
    rw [outer_step_switch_ok b 0 1 [2]
      { current := some (mkModel "gemini-2.5-flash"), nInst := 0, nCalls := 1,
        total_retries := 1,
        events := [Event.callEv "models/gemini-2.5-flash" CallResult.resourceExhausted] }
      (mkModel "gemini-2.5-flash") rfl (by decide) (hinst _)]
    dsimp only
    rw [range3, innerLoop_engineStep_eq]
    dsimp only
    rw [h1]
    rfl
  have main : _generate_with_retry (some (mkModel "gemini-2.5-flash")) b
      = (some r,
        { current := some (mkModel "gemini-flash-latest"), nInst := 1, nCalls := 2,
          total_retries := 2,
          events := [Event.callEv "models/gemini-2.5-flash" CallResult.resourceExhausted,
            Event.instOk "gemini-flash-latest",
            Event.callEv "models/gemini-flash-latest" (CallResult.success r)] }) := by
    have e0 : _generate_with_retry (some (mkModel "gemini-2.5-flash")) b
        = outerLoop b 0 [0, 1, 2]
          { current := some (mkModel "gemini-2.5-flash"), nInst := 0, nCalls := 0,
            total_retries := 0, events := [] } := rfl
    rw [e0, slotA, slotB]
  exact ⟨by rw [main], by rw [main], by rw [main]; rfl, by rw [main]⟩

theorem c3_from_slot1 (r : Response) (b : Behavior)
    (hinst : ∀ n, b.instantiateFails n = false)
    (h0 : b.call 0 = CallResult.resourceExhausted)
    (h1 : b.call 1 = CallResult.success r) :
    C3Post "gemini-flash-latest" "gemini-2.0-flash-exp" r b := by
  have slotA : outerLoop b 1 [0, 1, 2]
      { current := some (mkModel "gemini-flash-latest"), nInst := 0, nCalls := 0,
        total_retries := 0, events := [] }
      = outerLoop b 1 [1, 2]
      { current := some (mkModel "gemini-flash-latest"), nInst := 0, nCalls := 1,
        total_retries := 1,
        events := [Event.callEv "models/gemini-flash-latest" CallResult.resourceExhausted] } := by
    rw [outer_step_stay b 1 0 [1, 2]
      { current := some (mkModel "gemini-flash-latest"), nInst := 0, nCalls := 0,
        total_retries := 0, events := [] }
      (mkModel "gemini-flash-latest") rfl (by decide)]
    rw [range3, innerLoop_engineStep_eq]
    dsimp only
    rw [h0]
    rfl
  have slotB : outerLoop b 1 [1, 2]
      { current := some (mkModel "gemini-flash-latest"), nInst := 0, nCalls := 1,
        total_retries := 1,
        events := [Event.callEv "models/gemini-flash-latest" CallResult.resourceExhausted] }
      = (some r,
        { current := some (mkModel "gemini-2.0-flash-exp"), nInst := 1, nCalls := 2,
          total_retries := 2,
          events := [Event.callEv "models/gemini-flash-latest" CallResult.resourceExhausted,
            Event.instOk "gemini-2.0-flash-exp",
            Event.callEv "models/gemini-2.0-flash-exp" (CallResult.success r)] }) := by
    rw [outer_step_switch_ok b 1 1 [2]
      { current := some (mkModel "gemini-flash-latest"), nInst := 0, nCalls := 1,
        total_retries := 1,
        events := [Event.callEv "models/gemini-flash-latest" CallResult.resourceExhausted] }
      (mkModel "gemini-flash-latest") rfl (by decide) (hinst _)]
    dsimp only
    rw [range3, innerLoop_engineStep_eq]
    dsimp only
    rw [h1]
    rfl
  have main : _generate_with_retry (some (mkModel "gemini-flash-latest")) b
      = (some r,
        { current := some (mkModel "gemini-2.0-flash-exp"), nInst := 1, nCalls := 2,
          total_retries := 2,
          events := [Event.callEv "models/gemini-flash-latest" CallResult.resourceExhausted,
            Event.instOk "gemini-2.0-flash-exp",
            Event.callEv "models/gemini-2.0-flash-exp" (CallResult.success r)] }) := by
    have e0 : _generate_with_retry (some (mkModel "gemini-flash-latest")) b
        = outerLoop b 1 [0, 1, 2]
          { current := some (mkModel "gemini-flash-latest"), nInst := 0, nCalls := 0,
            total_retries := 0, events := [] } := rfl
    rw [e0, slotA, slotB]
  exact ⟨by rw [main], by rw [main], by rw [main]; rfl, by rw [main]⟩

theorem c3_from_slot2 (r : Response) (b : Behavior)
    (hinst : ∀ n, b.instantiateFails n = false)
    (h0 : b.call 0 = CallResult.resourceExhausted)
    (h1 : b.call 1 = CallResult.success r) :
    C3Post "gemini-2.0-flash-exp" "gemini-2.5-flash" r b := by
  have slotA : outerLoop b 2 [0, 1, 2]
      { current := some (mkModel "gemini-2.0-flash-exp"), nInst := 0, nCalls := 0,
        total_retries := 0, events := [] }
      = outerLoop b 2 [1, 2]
      { current := some (mkModel "gemini-2.0-flash-exp"), nInst := 0, nCalls := 1,
        total_retries := 1,
        events := [Event.callEv "models/gemini-2.0-flash-exp" CallResult.resourceExhausted] } := by
    rw [outer_step_stay b 2 0 [1, 2]
      { current := some (mkModel "gemini-2.0-flash-exp"), nInst := 0, nCalls := 0,
        total_retries := 0, events := [] }
      (mkModel "gemini-2.0-flash-exp") rfl (by decide)]
    rw [range3, innerLoop_engineStep_eq]
    dsimp only
    rw [h0]
    rfl
  have slotB : outerLoop b 2 [1, 2]
      { current := some (mkModel "gemini-2.0-flash-exp"), nInst := 0, nCalls := 1,
        total_retries := 1,
        events := [Event.callEv "models/gemini-2.0-flash-exp" CallResult.resourceExhausted] }
      = (some r,
        { current := some (mkModel "gemini-2.5-flash"), nInst := 1, nCalls := 2,
          total_retries := 2,
          events := [Event.callEv "models/gemini-2.0-flash-exp" CallResult.resourceExhausted,
            Event.instOk "gemini-2.5-flash",
            Event.callEv "models/gemini-2.5-flash" (CallResult.success r)] }) := by
    rw [outer_step_switch_ok b 2 1 [2]
      { current := some (mkModel "gemini-2.0-flash-exp"), nInst := 0, nCalls := 1,
        total_retries := 1,
        events := [Event.callEv "models/gemini-2.0-flash-exp" CallResult.resourceExhausted] }
      (mkModel "gemini-2.0-flash-exp") rfl (by decide) (hinst _)]
    dsimp only
    rw [range3, innerLoop_engineStep_eq]
    dsimp only
    rw [h1]
    rfl
  have main : _generate_with_retry (some (mkModel "gemini-2.0-flash-exp")) b
      = (some r,
        { current := some (mkModel "gemini-2.5-flash"), nInst := 1, nCalls := 2,
          total_retries := 2,
          events := [Event.callEv "models/gemini-2.0-flash-exp" CallResult.resourceExhausted,
            Event.instOk "gemini-2.5-flash",
            Event.callEv "models/gemini-2.5-flash" (CallResult.success r)] }) := by
    have e0 : _generate_with_retry (some (mkModel "gemini-2.0-flash-exp")) b
        = outerLoop b 2 [0, 1, 2]
          { current := some (mkModel "gemini-2.0-flash-exp"), nInst := 0, nCalls := 0,
            total_retries := 0, events := [] } := rfl
    rw [e0, slotA, slotB]
  exact ⟨by rw [main], by rw [main], by rw [main]; rfl, by rw [main]⟩

/-- C3: starting from any registry model `A`, a quota-exhaustion error
on the first call followed by a successful call returns the successful
response, with exactly one call to `A` and exactly one call to the next
model `B` in wrap-around preference order (no retry on `A`), and the
process-wide model left on `B`. -/
theorem spec_C3_quota_switch (k : Fin 3) (r : Response) (b : Behavior)
    (hinst : ∀ n, b.instantiateFails n = false)
    (h0 : b.call 0 = CallResult.resourceExhausted)
    (h1 : b.call 1 = CallResult.success r) :
    C3Post (PREFERRED_MODELS.getD k.val "")
      (PREFERRED_MODELS.getD ((k.val + 1) % PREFERRED_MODELS.length) "") r b := by
  fin_cases k
  · exact c3_from_slot0 r b hinst h0 h1
  · exact c3_from_slot1 r b hinst h0 h1
  · exact c3_from_slot2 r b hinst h0 h1

/-- Evaluation of C3 on a provider that exhausts the quota once and then
answers: the second registry model returns the response. -/
theorem spec_C3_quota_switch_witness :
    C3Post "gemini-2.5-flash" "gemini-flash-latest" respOK quotaThenOkOracle :=
  spec_C3_quota_switch ⟨0, by decide⟩ respOK quotaThenOkOracle (fun _ => rfl) rfl rfl

/-- C10: the engine mutates the process-wide model in place and never
rolls it back: on return, the active model is the most recently
successfully instantiated one (the entry model when no instantiation
succeeded); on success it is exactly the model whose call produced the
returned response, that call being the final trace event; and on total
failure it can differ from the entry model, as the all-quota-exhausted
run ending on the last registry model shows. -/
theorem spec_C10_active_model_mutation (m0 : ModelObj) (b : Behavior) :
    ((_generate_with_retry (some m0) b).2).current =
      some (modelAfter m0 ((_generate_with_retry (some m0) b).2).events) ∧
    (∀ r : Response, (_generate_with_retry (some m0) b).1 = some r →
      ∃ (cm : ModelObj) (pre : List Event),
        ((_generate_with_retry (some m0) b).2).current = some cm ∧
        ((_generate_with_retry (some m0) b).2).events =
          pre ++ [Event.callEv cm.model_name (CallResult.success r)]) ∧
    ((_generate_with_retry (some (mkModel "gemini-2.5-flash")) quotaAllOracle).2).current =
      some (mkModel "gemini-2.0-flash-exp") := by
  obtain ⟨⟨Δ, hE, hC⟩, hS⟩ :=
    outer_current b (findStartIdx PREFERRED_MODELS 0 (lastPathComponent m0.model_name))
      (List.range PREFERRED_MODELS.length)
      { current := some m0, nInst := 0, nCalls := 0, total_retries := 0, events := [] } m0 rfl
  refine ⟨?_, ?_, ?_⟩
  · simp only [_generate_with_retry]
    rw [hE, hC]
    simp
  · simp only [_generate_with_retry]
    exact hS
  · decide

/-- Evaluation of C10 on an immediately successful run: the model kept
is the one whose call returned, and the trace ends with that call. -/
theorem spec_C10_active_model_mutation_witness :
    ((_generate_with_retry (some (mkModel "gemini-2.5-flash")) okOracle).2).current =
      some (modelAfter (mkModel "gemini-2.5-flash")
        ((_generate_with_retry (some (mkModel "gemini-2.5-flash")) okOracle).2).events) ∧
    (∃ (cm : ModelObj) (pre : List Event),
      ((_generate_with_retry (some (mkModel "gemini-2.5-flash")) okOracle).2).current = some cm ∧
      ((_generate_with_retry (some (mkModel "gemini-2.5-flash")) okOracle).2).events =
        pre ++ [Event.callEv cm.model_name (CallResult.success respOK)]) :=
  ⟨(spec_C10_active_model_mutation (mkModel "gemini-2.5-flash") okOracle).1,
   (spec_C10_active_model_mutation (mkModel "gemini-2.5-flash") okOracle).2.1 respOK rfl⟩

end Corelytics
